import Mathlib

/-!
Shallow embedding of the RAG chat core of the health_center repository
(backend/app/services/rag_chat_service.py, web_search_service.py,
conversation_memory_service.py), together with theorems settling the
frozen claims about it.

Conventions of the embedding:
* Python floats are modelled as rationals (ℚ); Python `len` on strings is
  `String.length` (both count Unicode code points).
* Python dictionaries with optional keys are modelled as structures with
  `Option` fields; `dict.get(key, default)` becomes `field.getD default`.
* Fallible external calls (vector search, web search, the LLM `invoke`)
  are modelled as oracle functions returning `Except String α`;
  a raised exception is the `.error` case.
* Wall-clock quantities (elapsed time, ISO timestamps, the day-age of a
  parsed timestamp) are threaded as explicit inputs.
-/

namespace HealthCenter

/-- Metadata dictionary attached to a search-result chunk
(rag_chat_service.py uses `metadata.get('doc_id', '')`,
`metadata.get('timestamp', metadata.get('vectorization_date', ''))`,
`metadata.get('chunk_index', 0)`, `metadata.get('total_chunks', 1)`,
`metadata.get('source_filename', '不明')`); a `none` field models an
absent key. -/
structure Metadata where
  doc_id : Option String := none
  timestamp : Option String := none
  vectorization_date : Option String := none
  chunk_index : Option Int := none
  total_chunks : Option Int := none
  source_filename : Option String := none
  deriving Repr, DecidableEq

/-- The `reranking_scores` dictionary written into a result by
`LightweightReranker.rerank`. -/
structure RerankScores where
  combined : ℚ
  similarity : ℚ
  keyword_match : ℚ
  recency : ℚ
  chunk_position : ℚ
  doc_frequency : ℚ
  deriving Repr, DecidableEq

/-- A search-result dictionary as produced by the vector service and
consumed by the reranker and context builder: `text`, `metadata`,
`similarity`, and the optional `reranking_scores` added by reranking. -/
structure RResult where
  text : String := ""
  metadata : Metadata := {}
  similarity : ℚ := 0
  reranking_scores : Option RerankScores := none
  deriving Repr, DecidableEq

/-- A source record built by `RAGChatService.build_context`. -/
structure SourceEntry where
  index : Nat
  filename : String
  chunk_index : Int
  total_chunks : Int
  similarity : ℚ
  reranking_score : ℚ
  excerpt : String
  deriving Repr, DecidableEq

/-- Python `'\n\n'.join` / `'\n'.join`: join a list of strings with a
separator (empty list gives the empty string). -/
def joinSep (sep : String) : List String → String
  | [] => ""
  | [p] => p
  | p :: q :: rest => p ++ sep ++ joinSep sep (q :: rest)

/-- One formatted context block of `build_context`:
`f"[{i}] {filename} {chunk_info}:\n{text}"` with
`chunk_info = f"(チャンク {chunk_index + 1}/{total_chunks})"`. -/
def contextBlock (i : Nat) (r : RResult) : String :=
  let filename := r.metadata.source_filename.getD "不明"
  let ci := r.metadata.chunk_index.getD 0
  let tc := r.metadata.total_chunks.getD 1
  "[" ++ toString i ++ "] " ++ filename ++ " (チャンク " ++ toString (ci + 1) ++ "/" ++
    toString tc ++ "):\n" ++ r.text

/-- The source dictionary appended by `build_context` for the `i`-th
accepted result. -/
def mkSource (i : Nat) (r : RResult) : SourceEntry :=
  { index := i
    filename := r.metadata.source_filename.getD "不明"
    chunk_index := r.metadata.chunk_index.getD 0
    total_chunks := r.metadata.total_chunks.getD 1
    similarity := r.similarity
    reranking_score := (r.reranking_scores.map RerankScores.combined).getD 0
    excerpt := if r.text.length > 200 then r.text.take 200 ++ "..." else r.text }

/-- The loop of `build_context` over the `max_sources`-truncated result
list: `i` is the 1-based loop index, `cur` the running `current_length`.
The Python guard `current_length + len(text) > max_length and
context_parts` (break) becomes `maxLen < cur + r.text.length ∧ 1 < i`,
since the loop breaks at the first rejection, so `context_parts` is
non-empty exactly when this is not the first iteration. -/
def bcAux (maxLen : Nat) : List RResult → Nat → Nat → List String × List SourceEntry
  | [], _, _ => ([], [])
  | r :: rest, i, cur =>
    if maxLen < cur + r.text.length ∧ 1 < i then ([], [])
    else
      let pr := bcAux maxLen rest (i + 1) (cur + r.text.length)
      (contextBlock i r :: pr.1, mkSource i r :: pr.2)

/-- `RAGChatService.build_context(results, max_length, max_sources)`:
truncates to the top `max_sources` results, accumulates blocks under the
character budget, and returns `('\n\n'.join(context_parts), sources)`. -/
def build_context (results : List RResult) (maxLength : Nat) (maxSources : Nat) :
    String × List SourceEntry :=
  let pr := bcAux maxLength (results.take maxSources) 1 0
  (joinSep "\n\n" pr.1, pr.2)

/-- Sum of the raw `text` lengths of a result list; this is the quantity
`current_length` tracks in `build_context`. -/
def textLenSum (l : List RResult) : Nat := (l.map (fun r => r.text.length)).sum

theorem textLenSum_nil : textLenSum [] = 0 := rfl

theorem textLenSum_cons (r : RResult) (l : List RResult) :
    textLenSum (r :: l) = r.text.length + textLenSum l := by
  simp [textLenSum]

/-- The loop never returns more sources than it was given candidates. -/
theorem bcAux_length_le (maxLen : Nat) (l : List RResult) (i cur : Nat) :
    (bcAux maxLen l i cur).2.length ≤ l.length := by
  induction l generalizing i cur with
  | nil => simp [bcAux]
  | cons r rest ih =>
    by_cases h : maxLen < cur + r.text.length ∧ 1 < i
    · simp [bcAux, h]
    · simp only [bcAux, if_neg h, List.length_cons]
      exact Nat.succ_le_succ (ih (i + 1) (cur + r.text.length))

/-- When every candidate fits in the remaining budget, the loop accepts
them all. -/
theorem bcAux_length_of_fits (maxLen : Nat) (l : List RResult) (i cur : Nat)
    (h : cur + textLenSum l ≤ maxLen) :
    (bcAux maxLen l i cur).2.length = l.length := by
  induction l generalizing i cur with
  | nil => simp [bcAux]
  | cons r rest ih =>
    have hr : cur + r.text.length ≤ maxLen := by
      have := h
      rw [textLenSum_cons] at this
      omega
    have hcond : ¬ (maxLen < cur + r.text.length ∧ 1 < i) := by
      intro hc
      exact absurd hr (Nat.not_le.mpr hc.1)
    simp only [bcAux, if_neg hcond, List.length_cons]
    have hrest : cur + r.text.length + textLenSum rest ≤ maxLen := by
      have := h
      rw [textLenSum_cons] at this
      omega
    rw [ih (i + 1) (cur + r.text.length) hrest]

/-- Once one candidate has been accepted (`2 ≤ i`) and the running length
already exceeds the budget, the loop accepts nothing more. -/
theorem bcAux_stop (maxLen : Nat) (l : List RResult) (i cur : Nat)
    (hi : 2 ≤ i) (hcur : maxLen < cur) :
    (bcAux maxLen l i cur).2 = [] := by
  cases l with
  | nil => simp [bcAux]
  | cons r rest =>
    have hcond : maxLen < cur + r.text.length ∧ 1 < i :=
      ⟨Nat.lt_of_lt_of_le hcur (Nat.le_add_right cur r.text.length), hi⟩
    simp [bcAux, hcond]

/-- Budget invariant of the loop after the first acceptance: either the
final running length stays within budget or no further candidate was
accepted. -/
theorem bcAux_budget (maxLen : Nat) (l : List RResult) (i cur : Nat)
    (hi : 2 ≤ i) (hcur : cur ≤ maxLen) :
    cur + textLenSum (l.take (bcAux maxLen l i cur).2.length) ≤ maxLen ∨
      (bcAux maxLen l i cur).2 = [] := by
  induction l generalizing i cur with
  | nil => right; simp [bcAux]
  | cons r rest ih =>
    by_cases h : maxLen < cur + r.text.length ∧ 1 < i
    · right; simp [bcAux, h]
    · have haccept : cur + r.text.length ≤ maxLen := by
        rcases Nat.lt_or_ge maxLen (cur + r.text.length) with hlt | hle
        · exact absurd ⟨hlt, by omega⟩ h
        · exact hle
      simp only [bcAux, if_neg h, List.length_cons]
      rcases ih (i + 1) (cur + r.text.length) (by omega) haccept with hin | hempty
      · left
        rw [List.take_succ_cons, textLenSum_cons]
        omega
      · left
        rw [hempty]
        simp only [List.length_nil, List.take_succ_cons, List.take_zero]
        rw [textLenSum_cons, textLenSum_nil]
        omega

/-- Demo candidate with a 3-character text and all-default metadata. -/
def rDemoA : RResult := { text := "aaa" }

/-- Second demo candidate with a 3-character text. -/
def rDemoB : RResult := { text := "bbb" }

/-- C3, claim as stated, is false: with candidates of text lengths 3 and
3 and budget 10, both are accepted (their texts sum to 6 ≤ 10), yet the
returned context string has length 46 > 10, because the per-source
headers and the blank-line separators are not counted against
`current_length`.  Two sources were included, so the claim's
single-oversized-source exception does not apply. -/
theorem c3_counterexample :
    (build_context [rDemoA, rDemoB] 10 3).2.length = 2 ∧
      (build_context [rDemoA, rDemoB] 10 3).1.length = 46 ∧
      ¬ (build_context [rDemoA, rDemoB] 10 3).1.length ≤ 10 := by
  decide

/-- C3 (amended): the character budget of `build_context` bounds the
accumulated raw candidate text (the quantity `current_length` tracks),
not the full formatted context string: unless exactly one source was
included, the total `text` length of the included sources is at most
`maxLength`.  The formatted string additionally carries one header per
source and `"\n\n"` separators, which are not counted. -/
theorem c3_amended (results : List RResult) (maxLength maxSources : Nat)
    (h : (build_context results maxLength maxSources).2.length ≠ 1) :
    textLenSum ((results.take maxSources).take
      (build_context results maxLength maxSources).2.length) ≤ maxLength := by
  have hbc : (build_context results maxLength maxSources).2 =
      (bcAux maxLength (results.take maxSources) 1 0).2 := rfl
  rw [hbc] at h ⊢
  rcases htop : results.take maxSources with _ | ⟨r, rest⟩
  · simp [bcAux, textLenSum]
  · rw [htop] at h
    have hcond : ¬ (maxLength < 0 + r.text.length ∧ 1 < 1) := by
      intro hc
      exact absurd hc.2 (by omega)
    simp only [bcAux, if_neg hcond, List.length_cons] at h ⊢
    rcases Nat.lt_or_ge maxLength r.text.length with hover | hfit
    · have hempty := bcAux_stop maxLength rest (1 + 1) (0 + r.text.length) (by omega)
        (by omega)
      rw [hempty] at h
      simp at h
    · rcases bcAux_budget maxLength rest (1 + 1) (0 + r.text.length) (by omega)
        (by omega) with hin | hempty
      · rw [List.take_succ_cons, textLenSum_cons]
        omega
      · rw [hempty] at h
        simp at h

/-- Witness for c3_amended: with budget 100 both demo candidates are
accepted (2 sources ≠ 1) and their accumulated text length is within
budget. -/
theorem c3_amended_witness :
    textLenSum ((([rDemoA, rDemoB]).take 3).take
      (build_context [rDemoA, rDemoB] 100 3).2.length) ≤ 100 :=
  c3_amended [rDemoA, rDemoB] 100 3 (by decide)

/-- C4, claim as stated, is false: with two candidates of text length 3
and budget 3, the first is accepted unconditionally and the second is
rejected by the budget check, so only 1 source is returned although
`min(maxSources, len(results)) = min 3 2 = 2`. -/
theorem c4_counterexample :
    (build_context [rDemoA, rDemoB] 3 3).2.length = 1 ∧
      ¬ (build_context [rDemoA, rDemoB] 3 3).2.length =
          min 3 ([rDemoA, rDemoB].length) := by
  decide

/-- C4 (amended): the number of returned sources is at most
`min(maxSources, len(results))`, with equality whenever the texts of the
first `min(maxSources, len(results))` candidates together fit in
`maxLength`; the budget break can return fewer (down to a single
source). -/
theorem c4_amended (results : List RResult) (maxLength maxSources : Nat) :
    (build_context results maxLength maxSources).2.length ≤
        min maxSources results.length ∧
      (textLenSum (results.take maxSources) ≤ maxLength →
        (build_context results maxLength maxSources).2.length =
          min maxSources results.length) := by
  constructor
  · have hle := bcAux_length_le maxLength (results.take maxSources) 1 0
    rwa [List.length_take] at hle
  · intro hfits
    have heq := bcAux_length_of_fits maxLength (results.take maxSources) 1 0
      (by omega)
    rw [build_context]
    rw [heq, List.length_take]

/-- Witness for c4_amended at a concrete input where the fitting
hypothesis holds: both demo texts fit in budget 100, and indeed both
bounds are realized. -/
theorem c4_amended_witness :
    (build_context [rDemoA, rDemoB] 100 3).2.length ≤
        min 3 ([rDemoA, rDemoB].length) ∧
      (build_context [rDemoA, rDemoB] 100 3).2.length =
        min 3 ([rDemoA, rDemoB].length) :=
  ⟨(c4_amended [rDemoA, rDemoB] 100 3).1,
    (c4_amended [rDemoA, rDemoB] 100 3).2 (by decide)⟩

/-- Every formatted context block is non-empty (it starts with the
bracketed index). -/
theorem contextBlock_length_pos (i : Nat) (r : RResult) :
    0 < (contextBlock i r).length := by
  have hbrack : ("[" : String).length = 1 := rfl
  simp only [contextBlock, String.length_append]
  omega

/-- Joining a non-empty list of parts yields a string at least as long as
its first part. -/
theorem joinSep_head_le (sep : String) (p : String) (ps : List String) :
    p.length ≤ (joinSep sep (p :: ps)).length := by
  cases ps with
  | nil => simp [joinSep]
  | cons q rest =>
    simp only [joinSep, String.length_append]
    omega

/-- A string of positive length is not the empty string. -/
theorem ne_empty_of_length_pos (s : String) (h : 0 < s.length) : s ≠ "" := by
  intro h0
  rw [h0] at h
  simp at h

/-- C5 (confirmed): with a positive source cap, `build_context` on a
non-empty ranked list always accepts the first candidate — the break
guard requires `context_parts` to be non-empty — so the context string is
non-empty and at least one source is returned, regardless of how large
the first candidate's text is relative to the budget. -/
theorem c5_first_candidate_always_accepted (results : List RResult)
    (maxLength maxSources : Nat) (hres : results ≠ []) (hms : 1 ≤ maxSources) :
    (build_context results maxLength maxSources).1 ≠ "" ∧
      1 ≤ (build_context results maxLength maxSources).2.length := by
  rcases results with _ | ⟨r, rest⟩
  · exact absurd rfl hres
  · obtain ⟨k, hk⟩ : ∃ k, maxSources = k + 1 := ⟨maxSources - 1, by omega⟩
    subst hk
    rw [build_context]
    simp only [List.take_succ_cons]
    have hcond : ¬ (maxLength < 0 + r.text.length ∧ 1 < 1) := by
      intro hc
      exact absurd hc.2 (by omega)
    simp only [bcAux, if_neg hcond]
    refine ⟨?_, by simp⟩
    refine ne_empty_of_length_pos _ ?_
    have h1 := contextBlock_length_pos 1 r
    have h2 := joinSep_head_le "\n\n" (contextBlock 1 r)
      (bcAux maxLength (rest.take k) (1 + 1) (0 + r.text.length)).1
    omega

/-- Witness for c5_first_candidate_always_accepted: a single demo result
whose 3-character text exceeds the budget 1 still yields a source and a
non-empty context. -/
theorem c5_witness :
    (build_context [rDemoA] 1 3).1 ≠ "" ∧
      1 ≤ (build_context [rDemoA] 1 3).2.length :=
  c5_first_candidate_always_accepted [rDemoA] 1 3 (by decide) (by decide)

/-- Python `str.lower()` followed by `str.split()` (split on whitespace
runs, dropping empty tokens), modelled at the character-list level with
`Char.toLower` and `Char.isWhitespace`. -/
def lowerTokens (s : String) : List (List Char) :=
  ((s.data.map Char.toLower).splitOnP Char.isWhitespace).filter (fun w => w ≠ [])

/-- Python `set(...)` over the tokens: the distinct tokens (first
occurrences kept; only cardinalities and membership are used, so the
retained order is irrelevant). -/
def termSet (s : String) : List (List Char) := (lowerTokens s).dedup

/-- Auxiliary for `pyIn`: `a` is a prefix of `b` (Boolean). -/
def leadsList (a b : List Char) : Bool :=
  match a, b with
  | [], _ => true
  | _ :: _, [] => false
  | x :: xs, y :: ys => x == y && leadsList xs ys

/-- Python `a in b` on strings: `a` is a contiguous substring of `b`
(the empty string is a substring of everything). -/
def pyIn (a : List Char) : List Char → Bool
  | [] => a.isEmpty
  | y :: ys => leadsList a (y :: ys) || pyIn a ys

/-- Python `min(a, b)` on numbers, kept as an executable conditional. -/
def pyMin (a b : ℚ) : ℚ := if a ≤ b then a else b

/-- `LightweightReranker.calculate_keyword_score(query, text)`:
`exact_matches = len(query_terms & text_terms)`; `partial_matches` is the
double generator sum over all (query term, text term) pairs where one
contains the other; score `= min(1.0, (exact*1.0 + partial*0.5) /
len(query_terms))`, and `0.0` when the query has no terms. -/
def calculate_keyword_score (query text : String) : ℚ :=
  let qts := termSet query
  let tts := termSet text
  if qts = [] then 0
  else
    let exact := (qts.filter (fun q => tts.contains q)).length
    let pairs := (qts.map
      (fun q => (tts.filter (fun t => pyIn q t || pyIn t q)).length)).sum
    pyMin 1 (((exact : ℚ) * 1 + (pairs : ℚ) * (1 / 2)) / (qts.length : ℚ))

/-- Modelled from the claim's words (for comparison with the code): the
partial component counts query TERMS that match some candidate term,
rather than matching pairs. -/
def claimKeywordScore (query text : String) : ℚ :=
  let qts := termSet query
  let tts := termSet text
  if qts = [] then 0
  else
    let exact := (qts.filter (fun q => tts.contains q)).length
    let matchingTerms := (qts.filter
      (fun q => tts.any (fun t => pyIn q t || pyIn t q))).length
    pyMin 1 (((exact : ℚ) * 1 + (matchingTerms : ℚ) * (1 / 2)) / (qts.length : ℚ))

/-- C7, claim as stated, is false: for query "a b" and candidate text
"ac ad", the code counts the two pairs (a, ac) and (a, ad), giving
(0 + 2·0.5)/2 = 1/2, while the claim's per-query-term count gives
(0 + 1·0.5)/2 = 1/4. -/
theorem c7_counterexample :
    calculate_keyword_score "a b" "ac ad" = 1 / 2 ∧
      claimKeywordScore "a b" "ac ad" = 1 / 4 ∧
      calculate_keyword_score "a b" "ac ad" ≠ claimKeywordScore "a b" "ac ad" := by
  have hne : ¬ (termSet "a b" = []) := by decide
  have he : ((termSet "a b").filter
      (fun q => (termSet "ac ad").contains q)).length = 0 := by decide
  have hp : ((termSet "a b").map
      (fun q => ((termSet "ac ad").filter
        (fun t => pyIn q t || pyIn t q)).length)).sum = 2 := by decide
  have hm : ((termSet "a b").filter
      (fun q => (termSet "ac ad").any (fun t => pyIn q t || pyIn t q))).length = 1 := by
    decide
  have hl : (termSet "a b").length = 2 := by decide
  have hcode : calculate_keyword_score "a b" "ac ad" = 1 / 2 := by
    simp only [calculate_keyword_score, if_neg hne, he, hp, hl]
    norm_num [pyMin]
  have hclaim : claimKeywordScore "a b" "ac ad" = 1 / 4 := by
    simp only [claimKeywordScore, if_neg hne, he, hm, hl]
    norm_num [pyMin]
  refine ⟨hcode, hclaim, ?_⟩
  rw [hcode, hclaim]
  norm_num

/-- The double generator sum of `partial_matches` counts exactly the
matching (query term, text term) pairs of the cartesian product of the
two term sets. -/
theorem pairSum_eq_product_filter (P : List Char → List Char → Bool)
    (qts tts : List (List Char)) :
    (qts.map (fun q => (tts.filter (fun t => P q t)).length)).sum =
      ((qts ×ˢ tts).filter (fun p => P p.1 p.2)).length := by
  induction qts with
  | nil => simp [List.nil_product]
  | cons q qs ih =>
    rw [List.map_cons, List.sum_cons, List.product_cons, List.filter_append,
      List.length_append, ih, List.filter_map, List.length_map]
    rfl

/-- pyMin 1 x is at most 1 when 0 ≤ ... (both branches). -/
theorem pyMin_one_le (x : ℚ) : pyMin 1 x ≤ 1 := by
  unfold pyMin
  split
  · exact le_refl 1
  · exact le_of_not_le (by assumption)

/-- pyMin 1 x is non-negative when x is. -/
theorem pyMin_one_nonneg (x : ℚ) (hx : 0 ≤ x) : 0 ≤ pyMin 1 x := by
  unfold pyMin
  split
  · norm_num
  · exact hx

/-- Unfolding equation for `calculate_keyword_score` with the local
bindings inlined. -/
theorem keyword_score_eq (query text : String) :
    calculate_keyword_score query text =
      if termSet query = [] then 0
      else
        pyMin 1 (((((termSet query).filter
            (fun q => (termSet text).contains q)).length : ℚ) * 1 +
          (((termSet query).map (fun q => ((termSet text).filter
            (fun t => pyIn q t || pyIn t q)).length)).sum : ℚ) * (1 / 2)) /
          (((termSet query).length : ℚ))) := rfl

/-- The keyword score is always non-negative. -/
theorem keyword_score_nonneg (query text : String) :
    0 ≤ calculate_keyword_score query text := by
  rw [keyword_score_eq]
  split
  · exact le_refl 0
  · refine pyMin_one_nonneg _ ?_
    have hnum : (0 : ℚ) ≤
        (((termSet query).filter (fun q => (termSet text).contains q)).length : ℚ) * 1 +
          (((termSet query).map (fun q => ((termSet text).filter
            (fun t => pyIn q t || pyIn t q)).length)).sum : ℚ) * (1 / 2) := by
      positivity
    have hden : (0 : ℚ) ≤ ((termSet query).length : ℚ) := by positivity
    exact div_nonneg hnum hden

/-- C7 (amended): with at least one query term, the keyword score equals
(exactSetIntersectionCount × 1.0 + matchingPairCount × 0.5) divided by
the number of distinct query terms and capped at 1.0, where
matchingPairCount counts the (query term, candidate term) PAIRS of the
distinct term sets with one a substring of the other — a query term
matching several candidate terms is counted once per pair, and an exact
match is counted again as a pair.  The score always lies in [0, 1]. -/
theorem c7_amended (query text : String) (h : ¬ termSet query = []) :
    calculate_keyword_score query text =
      pyMin 1 (((((termSet query).filter
          (fun q => (termSet text).contains q)).length : ℚ) * 1 +
        ((((termSet query) ×ˢ (termSet text)).filter
          (fun p => pyIn p.1 p.2 || pyIn p.2 p.1)).length : ℚ) * (1 / 2)) /
        (((termSet query).length : ℚ))) ∧
      0 ≤ calculate_keyword_score query text ∧
      calculate_keyword_score query text ≤ 1 := by
  refine ⟨?_, keyword_score_nonneg query text, ?_⟩
  · rw [keyword_score_eq, if_neg h]
    rw [pairSum_eq_product_filter (fun q t => pyIn q t || pyIn t q)
      (termSet query) (termSet text)]
  · rw [keyword_score_eq]
    split
    · norm_num
    · exact pyMin_one_le _

/-- Witness for c7_amended at the concrete counterexample input. -/
theorem c7_amended_witness :
    calculate_keyword_score "a b" "ac ad" =
      pyMin 1 (((((termSet "a b").filter
          (fun q => (termSet "ac ad").contains q)).length : ℚ) * 1 +
        ((((termSet "a b") ×ˢ (termSet "ac ad")).filter
          (fun p => pyIn p.1 p.2 || pyIn p.2 p.1)).length : ℚ) * (1 / 2)) /
        (((termSet "a b").length : ℚ))) ∧
      0 ≤ calculate_keyword_score "a b" "ac ad" ∧
      calculate_keyword_score "a b" "ac ad" ≤ 1 :=
  c7_amended "a b" "ac ad" (by decide)

/-- Python `max(a, b)` on numbers, kept as an executable conditional. -/
def pyMax (a b : ℚ) : ℚ := if a ≤ b then b else a

/-- `LightweightReranker.calculate_recency_score(timestamp)`.  The body
parses the timestamp with `datetime.fromisoformat` and computes
`days_old = (now - doc_time).days`, both inside a `try` whose `except`
returns 0.5.  The wall-clock parse is modelled by its outcome
`daysOld : Option Int`: `none` is the except branch (missing or
unparseable timestamp), `some d` the parsed age in days, which is
NEGATIVE for a timestamp in the future (Python timedelta `.days` floors).
On `some d` the code returns `max(0.0, 1.0 - days_old / 60)`. -/
def calculate_recency_score (daysOld : Option Int) : ℚ :=
  match daysOld with
  | none => 1 / 2
  | some d => pyMax 0 (1 - (d : ℚ) / 60)

/-- C8, claim as stated, is false on its "in all cases the score lies in
[0, 1]" part: a metadata timestamp six days in the future parses fine,
`(now - doc_time).days = -6`, and the score is 1 + 6/60 = 11/10 > 1. -/
theorem c8_counterexample :
    calculate_recency_score (some (-6)) = 11 / 10 ∧
      ¬ calculate_recency_score (some (-6)) ≤ 1 := by
  have h : calculate_recency_score (some (-6)) = 11 / 10 := by
    show pyMax 0 (1 - ((-6 : Int) : ℚ) / 60) = 11 / 10
    rw [pyMax]
    norm_num
  refine ⟨h, ?_⟩
  rw [h]
  norm_num

/-- C8 (amended): the recency score is `max(0, 1 − ageInDays/60)` when
the timestamp parses and exactly 0.5 when it is missing or unparseable;
it is always non-negative, and it lies in [0, 1] whenever the parsed age
is non-negative (i.e. the timestamp is not in the future).  A future
timestamp yields a score above 1, growing with the distance. -/
theorem c8_amended (o : Option Int) :
    0 ≤ calculate_recency_score o ∧
      (o = none → calculate_recency_score o = 1 / 2) ∧
      ∀ d : Int, o = some d →
        calculate_recency_score o = pyMax 0 (1 - (d : ℚ) / 60) ∧
          (0 ≤ d → calculate_recency_score o ≤ 1) := by
  refine ⟨?_, ?_, ?_⟩
  · cases o with
    | none =>
      show (0 : ℚ) ≤ 1 / 2
      norm_num
    | some d =>
      show (0 : ℚ) ≤ pyMax 0 (1 - (d : ℚ) / 60)
      rw [pyMax]
      split
      · assumption
      · exact le_refl 0
  · intro h
    subst h
    rfl
  · intro d h
    subst h
    refine ⟨rfl, ?_⟩
    intro hd
    show pyMax 0 (1 - (d : ℚ) / 60) ≤ 1
    rw [pyMax]
    have hdq : (0 : ℚ) ≤ (d : ℚ) := by exact_mod_cast hd
    split
    · have : (d : ℚ) / 60 ≥ 0 := by positivity
      linarith
    · norm_num

/-- Witness for c8_amended: a 30-day-old document scores within [0, 1],
and a missing timestamp scores exactly 0.5. -/
theorem c8_amended_witness :
    calculate_recency_score (some 30) ≤ 1 ∧
      calculate_recency_score none = 1 / 2 :=
  ⟨((c8_amended (some 30)).2.2 30 rfl).2 (by norm_num),
    (c8_amended none).2.1 rfl⟩

/-- `LightweightReranker.calculate_chunk_position_score(chunk_index,
total_chunks)`: 1.0 for single-chunk documents, otherwise a linear decay
`1.0 - 0.5 * (chunk_index / (total_chunks - 1))`. -/
def calculate_chunk_position_score (chunk_index total_chunks : Int) : ℚ :=
  if total_chunks ≤ 1 then 1
  else 1 - (1 / 2) * ((chunk_index : ℚ) / ((total_chunks : ℚ) - 1))

/-- The reranker's mutable weight map (`LightweightReranker.weights`). -/
structure Weights where
  similarity : ℚ
  keyword_match : ℚ
  recency : ℚ
  chunk_position : ℚ
  doc_frequency : ℚ
  deriving Repr, DecidableEq

/-- The default weight map installed by the reranker constructor. -/
def defaultWeights : Weights :=
  { similarity := 4 / 10
    keyword_match := 3 / 10
    recency := 1 / 10
    chunk_position := 1 / 10
    doc_frequency := 1 / 10 }

/-- `result.get('metadata', {}).get('doc_id', '')`. -/
def docIdOf (r : RResult) : String := r.metadata.doc_id.getD ""

/-- The count the `doc_frequency` defaultdict stores for one document id
(built only from results with a truthy doc_id). -/
def docFreq (results : List RResult) (d : String) : Nat :=
  (results.filter (fun r => docIdOf r == d)).length

/-- `max(doc_frequency.values())`: the largest per-document chunk count
in the current batch, 0 when no result carries a doc id. -/
def maxDocFreq (results : List RResult) : Nat :=
  ((results.filter (fun r => ¬ docIdOf r = "")).map
    (fun r => docFreq results (docIdOf r))).foldr max 0

/-- Whether the `doc_frequency` dict is non-empty (some result has a
truthy doc_id). -/
def hasDocIds (results : List RResult) : Bool :=
  results.any (fun r => ¬ docIdOf r = "")

/-- `doc_frequency.get(doc_id, 1) / max(doc_frequency.values()) if
doc_frequency else 0.5`: for a result with an empty doc_id the dict has
no such key and the default 1 is used; for a non-empty doc_id of a batch
member the dict holds its count. -/
def docFreqScore (results : List RResult) (r : RResult) : ℚ :=
  if hasDocIds results then
    (if docIdOf r = "" then 1 else (docFreq results (docIdOf r) : ℚ)) /
      (maxDocFreq results : ℚ)
  else 1 / 2

/-- The timestamp string handed to `calculate_recency_score`:
`metadata.get('timestamp', metadata.get('vectorization_date', ''))`. -/
def tsOf (r : RResult) : String :=
  r.metadata.timestamp.getD (r.metadata.vectorization_date.getD "")

/-- The loop body of `rerank` for one result: computes the five signals,
the weighted combined score, and stores them in `reranking_scores`.
`parseTs` is the wall-clock oracle giving `calculate_recency_score` the
day-age of a timestamp string (`none` = unparseable). -/
def scoreResult (parseTs : String → Option Int) (w : Weights) (query : String)
    (results : List RResult) (r : RResult) : RResult :=
  let sim := r.similarity
  let kw := calculate_keyword_score query r.text
  let rcy := calculate_recency_score (parseTs (tsOf r))
  let cp := calculate_chunk_position_score (r.metadata.chunk_index.getD 0)
    (r.metadata.total_chunks.getD 1)
  let df := docFreqScore results r
  let combined := w.similarity * sim + w.keyword_match * kw + w.recency * rcy +
    w.chunk_position * cp + w.doc_frequency * df
  { r with reranking_scores := some ⟨combined, sim, kw, rcy, cp, df⟩ }

/-- Python's sort key `x['reranking_scores']['combined']` (0 if absent;
after scoring it is always present). -/
def combinedKey (r : RResult) : ℚ :=
  (r.reranking_scores.map RerankScores.combined).getD 0

/-- Stable descending insertion: place `x` before the first element whose
key is not larger, so that among equal keys the earlier (already
processed later in the fold, i.e. originally earlier) element comes
first.  This realizes the observable behavior of Python's stable
`list.sort(key=..., reverse=True)`. -/
def insertDesc (x : RResult) : List RResult → List RResult
  | [] => [x]
  | y :: ys =>
    if combinedKey y ≤ combinedKey x then x :: y :: ys else y :: insertDesc x ys

/-- Stable descending sort by combined score (insertion sort; any stable
sort with the same comparator returns the same list, so this matches
CPython's timsort with `reverse=True`, which does not reorder ties). -/
def sortDesc : List RResult → List RResult
  | [] => []
  | x :: xs => insertDesc x (sortDesc xs)

/-- `LightweightReranker.rerank(query, results)`: empty input is returned
as is; otherwise every result is annotated with its scores and the list
is sorted by combined score, descending and stable. -/
def rerank (parseTs : String → Option Int) (w : Weights) (query : String)
    (results : List RResult) : List RResult :=
  if results = [] then results
  else sortDesc (results.map (scoreResult parseTs w query results))

/-- Erase the reranking annotation, for stating that `rerank` permutes
the input results themselves (in Python the very same dict objects are
mutated in place and reordered). -/
def stripScores (r : RResult) : RResult :=
  { r with reranking_scores := none }

/-- Inserting permutes: `insertDesc x l` is `x :: l` up to order. -/
theorem insertDesc_perm (x : RResult) (l : List RResult) :
    (insertDesc x l).Perm (x :: l) := by
  induction l with
  | nil => exact List.Perm.refl _
  | cons y ys ih =>
    rw [insertDesc]
    split
    · exact List.Perm.refl _
    · exact (ih.cons y).trans (List.Perm.swap x y ys)

/-- The stable descending sort permutes its input. -/
theorem sortDesc_perm (l : List RResult) : (sortDesc l).Perm l := by
  induction l with
  | nil => exact List.Perm.refl _
  | cons x xs ih => exact (insertDesc_perm x (sortDesc xs)).trans (ih.cons x)

/-- Inserting into a descending list keeps it descending. -/
theorem insertDesc_pairwise (x : RResult) (l : List RResult)
    (h : l.Pairwise (fun a b => combinedKey b ≤ combinedKey a)) :
    (insertDesc x l).Pairwise (fun a b => combinedKey b ≤ combinedKey a) := by
  induction l with
  | nil => simp [insertDesc]
  | cons y ys ih =>
    rw [List.pairwise_cons] at h
    obtain ⟨hy, hys⟩ := h
    rw [insertDesc]
    by_cases hxy : combinedKey y ≤ combinedKey x
    · rw [if_pos hxy]
      refine List.Pairwise.cons ?_ (List.Pairwise.cons hy hys)
      intro b hb
      rcases List.mem_cons.mp hb with rfl | hb2
      · exact hxy
      · exact le_trans (hy b hb2) hxy
    · rw [if_neg hxy]
      refine List.Pairwise.cons ?_ (ih hys)
      intro b hb
      have hmem := (insertDesc_perm x ys).mem_iff.mp hb
      rcases List.mem_cons.mp hmem with rfl | hb2
      · exact le_of_lt (lt_of_not_le hxy)
      · exact hy b hb2

/-- The stable descending sort produces a descending list. -/
theorem sortDesc_pairwise (l : List RResult) :
    (sortDesc l).Pairwise (fun a b => combinedKey b ≤ combinedKey a) := by
  induction l with
  | nil => simp [sortDesc]
  | cons x xs ih => exact insertDesc_pairwise x (sortDesc xs) ih

/-- Stability of insertion, expressed through filtering on one key value:
all elements skipped before the insertion point have strictly larger
keys, so within any fixed key value the original order survives. -/
theorem filter_insertDesc (c : ℚ) (x : RResult) (l : List RResult) :
    (insertDesc x l).filter (fun r => combinedKey r = c) =
      if combinedKey x = c then x :: l.filter (fun r => combinedKey r = c)
      else l.filter (fun r => combinedKey r = c) := by
  induction l with
  | nil =>
    rw [insertDesc]
    by_cases hxc : combinedKey x = c
    · simp [hxc]
    · simp [hxc]
  | cons y ys ih =>
    rw [insertDesc]
    by_cases hxy : combinedKey y ≤ combinedKey x
    · rw [if_pos hxy]
      by_cases hxc : combinedKey x = c
      · simp [hxc]
      · simp [hxc]
    · rw [if_neg hxy]
      by_cases hyc : combinedKey y = c
      · by_cases hxc : combinedKey x = c
        · exfalso
          exact hxy (le_of_eq (hyc.trans hxc.symm))
        · simp [List.filter_cons, hyc, hxc, ih]
      · simp [List.filter_cons, hyc, ih]

/-- Stability of the whole sort: filtering the sorted list on any fixed
key value gives exactly the same-order sublist of the input. -/
theorem filter_sortDesc (c : ℚ) (l : List RResult) :
    (sortDesc l).filter (fun r => combinedKey r = c) =
      l.filter (fun r => combinedKey r = c) := by
  induction l with
  | nil => rfl
  | cons x xs ih =>
    rw [sortDesc, filter_insertDesc]
    by_cases hxc : combinedKey x = c
    · simp [List.filter_cons, hxc, ih]
    · simp [List.filter_cons, hxc, ih]

/-- The recency score is non-negative on every parse outcome. -/
theorem recency_score_nonneg (o : Option Int) :
    0 ≤ calculate_recency_score o := by
  cases o with
  | none =>
    show (0 : ℚ) ≤ 1 / 2
    norm_num
  | some d =>
    show (0 : ℚ) ≤ pyMax 0 (1 - (d : ℚ) / 60)
    rw [pyMax]
    split
    · assumption
    · exact le_refl 0

/-- The document-frequency score is non-negative for every batch. -/
theorem docFreqScore_nonneg (results : List RResult) (r : RResult) :
    0 ≤ docFreqScore results r := by
  rw [docFreqScore]
  split
  · refine div_nonneg ?_ (by positivity)
    split
    · norm_num
    · positivity
  · norm_num

/-- The sort key of a scored result is its weighted combined score. -/
theorem combinedKey_scoreResult (parseTs : String → Option Int) (w : Weights)
    (query : String) (results : List RResult) (r : RResult) :
    combinedKey (scoreResult parseTs w query results r) =
      w.similarity * r.similarity +
        w.keyword_match * calculate_keyword_score query r.text +
        w.recency * calculate_recency_score (parseTs (tsOf r)) +
        w.chunk_position * calculate_chunk_position_score
          (r.metadata.chunk_index.getD 0) (r.metadata.total_chunks.getD 1) +
        w.doc_frequency * docFreqScore results r := rfl

/-- Scoring only rewrites the `reranking_scores` entry of a result. -/
theorem stripScores_scoreResult (parseTs : String → Option Int) (w : Weights)
    (query : String) (results : List RResult) (r : RResult) :
    stripScores (scoreResult parseTs w query results r) = stripScores r := rfl

/-- C6 (confirmed): `rerank` returns a permutation (by identity, up to the
in-place score annotation) of its input, sorted descending by combined
score with ties keeping their original retrieval order (the filter
equation: restricting the output to any one combined-score value yields
exactly the input-order sublist), and — given non-negative weights and
non-negative signals (similarity and chunk-position; the keyword,
recency and document-frequency signals are non-negative unconditionally)
— every combined score is non-negative (finiteness is inherent in the
exact rational model of the floats). -/
theorem c6_rerank_perm_sorted_stable (parseTs : String → Option Int)
    (w : Weights) (query : String) (results : List RResult) :
    (rerank parseTs w query results).Perm
        (results.map (scoreResult parseTs w query results)) ∧
      ((rerank parseTs w query results).map stripScores).Perm
        (results.map stripScores) ∧
      (rerank parseTs w query results).Pairwise
        (fun a b => combinedKey b ≤ combinedKey a) ∧
      (∀ c : ℚ, (rerank parseTs w query results).filter
          (fun r => combinedKey r = c) =
        (results.map (scoreResult parseTs w query results)).filter
          (fun r => combinedKey r = c)) ∧
      ((0 ≤ w.similarity ∧ 0 ≤ w.keyword_match ∧ 0 ≤ w.recency ∧
          0 ≤ w.chunk_position ∧ 0 ≤ w.doc_frequency) →
        (∀ r ∈ results, 0 ≤ r.similarity) →
        (∀ r ∈ results, 0 ≤ calculate_chunk_position_score
          (r.metadata.chunk_index.getD 0) (r.metadata.total_chunks.getD 1)) →
        ∀ r ∈ rerank parseTs w query results, 0 ≤ combinedKey r) := by
  by_cases hres : results = []
  · subst hres
    refine ⟨?_, ?_, ?_, ?_, ?_⟩
    · simp [rerank]
    · simp [rerank]
    · simp [rerank]
    · intro c
      simp [rerank]
    · intro _ _ _ r hr
      simp [rerank] at hr
  · have hre : rerank parseTs w query results =
        sortDesc (results.map (scoreResult parseTs w query results)) := by
      rw [rerank, if_neg hres]
    refine ⟨?_, ?_, ?_, ?_, ?_⟩
    · rw [hre]
      exact sortDesc_perm _
    · rw [hre]
      refine List.Perm.trans (List.Perm.map stripScores (sortDesc_perm _)) ?_
      rw [List.map_map]
      have hcomp : stripScores ∘ scoreResult parseTs w query results =
          stripScores := by
        funext r
        exact stripScores_scoreResult parseTs w query results r
      rw [hcomp]
    · rw [hre]
      exact sortDesc_pairwise _
    · intro c
      rw [hre]
      exact filter_sortDesc c _
    · intro hw hsim hcp r hr
      rw [hre] at hr
      have hmem := ((sortDesc_perm _).mem_iff).mp hr
      obtain ⟨r0, hr0, hr0eq⟩ := List.mem_map.mp hmem
      subst hr0eq
      rw [combinedKey_scoreResult]
      obtain ⟨hw1, hw2, hw3, hw4, hw5⟩ := hw
      have h1 : 0 ≤ w.similarity * r0.similarity :=
        mul_nonneg hw1 (hsim r0 hr0)
      have h2 : 0 ≤ w.keyword_match * calculate_keyword_score query r0.text :=
        mul_nonneg hw2 (keyword_score_nonneg query r0.text)
      have h3 : 0 ≤ w.recency * calculate_recency_score (parseTs (tsOf r0)) :=
        mul_nonneg hw3 (recency_score_nonneg _)
      have h4 : 0 ≤ w.chunk_position * calculate_chunk_position_score
          (r0.metadata.chunk_index.getD 0) (r0.metadata.total_chunks.getD 1) :=
        mul_nonneg hw4 (hcp r0 hr0)
      have h5 : 0 ≤ w.doc_frequency * docFreqScore results r0 :=
        mul_nonneg hw5 (docFreqScore_nonneg results r0)
      linarith

/-- Wall-clock oracle for witnesses: nothing parses. -/
def ptNone : String → Option Int := fun _ => none

/-- Demo result for the reranker witness. -/
def rr1 : RResult := { text := "a", similarity := 1 / 2 }

/-- Witness for c6_rerank_perm_sorted_stable: at a concrete singleton
batch with the default weights, the (sole) reranked result has a
non-negative combined score. -/
theorem c6_witness :
    0 ≤ combinedKey (scoreResult ptNone defaultWeights "a" [rr1] rr1) := by
  have hsingle : rerank ptNone defaultWeights "a" [rr1] =
      [scoreResult ptNone defaultWeights "a" [rr1] rr1] := by
    rw [rerank, if_neg (by simp)]
    rfl
  refine (c6_rerank_perm_sorted_stable ptNone defaultWeights "a" [rr1]).2.2.2.2
    ⟨?_, ?_, ?_, ?_, ?_⟩ ?_ ?_ _ ?_
  · show (0 : ℚ) ≤ 4 / 10
    norm_num
  · show (0 : ℚ) ≤ 3 / 10
    norm_num
  · show (0 : ℚ) ≤ 1 / 10
    norm_num
  · show (0 : ℚ) ≤ 1 / 10
    norm_num
  · show (0 : ℚ) ≤ 1 / 10
    norm_num
  · intro r hr
    rw [List.mem_singleton] at hr
    subst hr
    show (0 : ℚ) ≤ 1 / 2
    norm_num
  · intro r hr
    rw [List.mem_singleton] at hr
    subst hr
    show (0 : ℚ) ≤ calculate_chunk_position_score 0 1
    rw [calculate_chunk_position_score, if_pos (by norm_num)]
    norm_num
  · rw [hsingle]
    exact List.mem_singleton.mpr rfl

/-- Environment of `RAGChatService.generate_response`: the optional LLM
(`self.llm`, `none` when no API key was configured) as an oracle from
(system prompt, user prompt) to the invocation outcome, the prompt
loader's `format_user_prompt(query, context, template_type)`, and the
conversation-memory collaborators `get_thread_info`/`get_context`. -/
structure GenEnv where
  llm : Option (String → String → Except String String)
  systemPrompt : String
  formatPrompt : String → String → String → String
  threadInfoExists : String → Bool
  memContext : String → Nat → String

/-- The conversation history block: non-empty only when a conversation id
is present, truthy (non-empty), and its thread exists, in which case the
last six messages are formatted by the memory service. -/
def conversationContext (env : GenEnv) (conversation_id : Option String) : String :=
  match conversation_id with
  | none => ""
  | some cid =>
    if ¬ cid = "" ∧ env.threadInfoExists cid then env.memContext cid 6 else ""

/-- The user prompt handed to the LLM: the template for the search type
("web" or default), preceded by the history block when one exists. -/
def userPromptOf (env : GenEnv) (query context : String)
    (conversation_id : Option String) (search_type : String) : String :=
  let base :=
    if search_type = "web" then env.formatPrompt query context "web"
    else env.formatPrompt query context "default"
  let conv := conversationContext env conversation_id
  if ¬ conv = "" then
    "## 過去の会話履歴\n" ++ conv ++ "\n\n## 新しい質問\n" ++ base
  else base

/-- `RAGChatService._generate_fallback_response(query, context)`: an
apology for an empty context, otherwise the first 10 lines of the
context wrapped in a disclaimer that generation is unavailable. -/
def generate_fallback_response (query context : String) : String :=
  if context = "" then
    "申し訳ございません。お探しの情報が見つかりませんでした。別のキーワードでお試しください。"
  else
    let preview := joinSep "\n" ((context.splitOn "\n").take 10)
    "「" ++ query ++ "」に関連する情報を見つけました：\n\n" ++ preview ++
      "\n\n※ AI応答が一時的に利用できないため、検索結果の抜粋を表示しています。"

/-- `RAGChatService.generate_response(query, context, conversation_id,
search_type)`: fallback when no LLM is configured; otherwise invoke the
LLM on (system prompt, user prompt) and return its content, falling back
on any raised error (the inner `try`/`except`). -/
def generate_response (env : GenEnv) (query context : String)
    (conversation_id : Option String) (search_type : String) : String :=
  match env.llm with
  | none => generate_fallback_response query context
  | some invoke =>
    match invoke env.systemPrompt
        (userPromptOf env query context conversation_id search_type) with
    | Except.ok content => content
    | Except.error _ => generate_fallback_response query context

/-- Generation environment whose LLM succeeds but returns empty content. -/
def emptyContentEnv : GenEnv :=
  { llm := some (fun _ _ => Except.ok "")
    systemPrompt := ""
    formatPrompt := fun _ _ _ => ""
    threadInfoExists := fun _ => false
    memContext := fun _ _ => "" }

/-- C2, claim as stated, is false on its "in every case the returned
response string is non-empty" part: when the configured LLM invocation
SUCCEEDS with empty content (Python `response.content == ""`),
`generate_response` returns that empty string verbatim — the fallback
only guards the not-configured and raising cases, not empty model
output.  (The web branch of `chat` patches this afterwards; the database
branch does not.) -/
theorem c2_counterexample :
    generate_response emptyContentEnv "q" "some context" none "database" = "" := rfl

/-- C2 (amended): if the LLM is not configured, or its invocation raises,
`generate_response` returns the deterministic fallback — for a non-empty
context the first 10 lines plus the unavailability disclaimer — and the
fallback is non-empty in every case; but when the invocation succeeds its
content is returned verbatim, which may be empty. -/
theorem c2_amended (env : GenEnv) (query context : String)
    (cid : Option String) (st : String) :
    (env.llm = none →
        generate_response env query context cid st =
          generate_fallback_response query context) ∧
      (∀ invoke e, env.llm = some invoke →
        invoke env.systemPrompt (userPromptOf env query context cid st) =
          Except.error e →
        generate_response env query context cid st =
          generate_fallback_response query context) ∧
      (∀ invoke content, env.llm = some invoke →
        invoke env.systemPrompt (userPromptOf env query context cid st) =
          Except.ok content →
        generate_response env query context cid st = content) ∧
      0 < (generate_fallback_response query context).length ∧
      (¬ context = "" →
        generate_fallback_response query context =
          "「" ++ query ++ "」に関連する情報を見つけました：\n\n" ++
            joinSep "\n" ((context.splitOn "\n").take 10) ++
            "\n\n※ AI応答が一時的に利用できないため、検索結果の抜粋を表示しています。") := by
  refine ⟨?_, ?_, ?_, ?_, ?_⟩
  · intro h
    rw [generate_response, h]
  · intro invoke e hinv herr
    rw [generate_response, hinv]
    dsimp only
    rw [herr]
  · intro invoke content hinv hok
    rw [generate_response, hinv]
    dsimp only
    rw [hok]
  · rw [generate_fallback_response]
    split
    · decide
    · simp only [String.length_append]
      have hq : ("「" : String).length = 1 := rfl
      omega
  · intro h
    rw [generate_fallback_response, if_neg h]

/-- Generation environment without a configured LLM. -/
def noLLMEnv : GenEnv :=
  { llm := none
    systemPrompt := ""
    formatPrompt := fun _ _ _ => ""
    threadInfoExists := fun _ => false
    memContext := fun _ _ => "" }

/-- Witness for c2_amended: with no LLM configured, the concrete call
returns the fallback, which is non-empty and equals the 10-line preview
plus disclaimer. -/
theorem c2_amended_witness :
    generate_response noLLMEnv "q" "ctx" none "database" =
        generate_fallback_response "q" "ctx" ∧
      0 < (generate_fallback_response "q" "ctx").length ∧
      generate_fallback_response "q" "ctx" =
        "「" ++ "q" ++ "」に関連する情報を見つけました：\n\n" ++
          joinSep "\n" ((("ctx" : String).splitOn "\n").take 10) ++
          "\n\n※ AI応答が一時的に利用できないため、検索結果の抜粋を表示しています。" :=
  ⟨(c2_amended noLLMEnv "q" "ctx" none "database").1 rfl,
    (c2_amended noLLMEnv "q" "ctx" none "database").2.2.2.1,
    (c2_amended noLLMEnv "q" "ctx" none "database").2.2.2.2 (by decide)⟩

/-- A web search result dictionary (web_search_service.py,
`search_web_detailed`): `none` models an absent key. -/
structure WebResult where
  title : Option String := none
  url : Option String := none
  snippet : Option String := none
  deriving Repr, DecidableEq

/-- A source record built by `WebSearchService.build_web_context`. -/
structure WebSource where
  title : String
  url : String
  snippet : String
  source_index : Nat
  deriving Repr, DecidableEq

/-- One context block of `build_web_context`: the indexed title, then the
URL line if the url is truthy, then the snippet line if truthy. -/
def webBlock (idx : Nat) (r : WebResult) : String :=
  let title := r.title.getD "No Title"
  let url := r.url.getD ""
  let snippet := r.snippet.getD ""
  "[" ++ toString (idx + 1) ++ "] " ++ title ++
    (if ¬ url = "" then "\nURL: " ++ url else "") ++
    (if ¬ snippet = "" then "\n" ++ snippet else "")

/-- The source record of `build_web_context` for index `idx` (0-based in
the loop, 1-based in the record), with Python truthiness defaults
`url or 'N/A'` and `snippet[:200] if snippet else 'No content
available'`. -/
def mkWebSource (idx : Nat) (r : WebResult) : WebSource :=
  let url := r.url.getD ""
  let snippet := r.snippet.getD ""
  { title := r.title.getD "No Title"
    url := if url = "" then "N/A" else url
    snippet := if snippet = "" then "No content available" else snippet.take 200
    source_index := idx + 1 }

/-- `WebSearchService.build_web_context(search_results, max_sources)`:
formats the first `max_sources` results and joins the blocks with blank
lines. -/
def build_web_context (search_results : List WebResult) (max_sources : Nat) :
    String × List WebSource :=
  let top := search_results.take max_sources
  (joinSep "\n\n" (top.mapIdx webBlock), top.mapIdx mkWebSource)

/-- A source record of a `chat` response: database-mode sources come from
`build_context`, web-mode sources from `build_web_context` (Python keeps
them as differently-shaped dictionaries in the same list position). -/
inductive ChatSource
  | db (s : SourceEntry)
  | web (s : WebSource)
  deriving Repr, DecidableEq

/-- The response dictionary of `RAGChatService.chat`.  A `none` in an
`Option` field models a key that the corresponding Python branch does not
put into the dictionary (`conversation_id` is doubly optional: present
with value `None` is `some none`). -/
structure ChatResponse where
  query : String
  response : String
  sources : List ChatSource := []
  search_results : Nat := 0
  search_type : Option String := none
  used_reranking : Option Bool := none
  conversation_id : Option (Option String) := none
  error : Option String := none
  processing_time : ℚ
  timestamp : Option String := none
  deriving Repr, DecidableEq

/-- Environment of `chat`: the generation environment plus the fallible
retrieval oracles, the reranker state, and the wall clock. -/
structure ChatEnv extends GenEnv where
  vectorSearch : String → Nat → Except String (List RResult)
  webSearchDetailed : String → Nat → Except String (List WebResult)
  parseTs : String → Option Int
  weights : Weights
  nowIso : String
  elapsed : ℚ

/-- Outcome of the web-path body (the code inside the inner `try` of
`chat`): either an early `return` with a finished response, or the
generated answer to be stored and wrapped. -/
inductive WebStage
  | early (r : ChatResponse)
  | done (response : String) (sources : List ChatSource) (count : Nat)

/-- The inner `try` body of the web path of `chat`: detailed web search,
the no-result and empty-context early returns, context building capped at
3 sources, generation, and the empty-response patch. -/
def webStage (env : ChatEnv) (query : String) (cid : Option String) (n : Nat) :
    Except String WebStage :=
  match env.webSearchDetailed query n with
  | Except.error e => Except.error e
  | Except.ok web_results =>
    if web_results = [] then
      Except.ok (WebStage.early
        { query := query
          response := "Web検索で情報が見つかりませんでした。別のキーワードでお試しください。"
          search_type := some "web"
          processing_time := env.elapsed })
    else
      let cs := build_web_context web_results 3
      if cs.1 = "" then
        Except.ok (WebStage.early
          { query := query
            response := "Web検索結果からコンテキストを構築できませんでした。"
            search_results := web_results.length
            search_type := some "web"
            processing_time := env.elapsed })
      else
        let response := generate_response env.toGenEnv query cs.1 cid "web"
        let response :=
          if response = "" then "申し訳ございません。応答の生成に失敗しました。" else response
        Except.ok (WebStage.done response (cs.2.map ChatSource.web)
          web_results.length)

/-- The `try` body of `RAGChatService.chat` (everything between the mode
dispatch and the outer `except`): the conversation-memory side effects
are pure bookkeeping in this model (they cannot raise — `_save_thread`
catches internally) and do not alter the response. -/
def chatBody (env : ChatEnv) (query : String) (cid : Option String) (n : Nat)
    (use_reranking use_database use_web_search : Bool) :
    Except String ChatResponse :=
  if use_web_search then
    match webStage env query cid n with
    | Except.error e =>
      Except.ok
        { query := query
          response := "Web検索中にエラーが発生しました: " ++ e
          search_type := some "web"
          error := some e
          processing_time := env.elapsed }
    | Except.ok (WebStage.early r) => Except.ok r
    | Except.ok (WebStage.done response sources count) =>
      Except.ok
        { query := query
          response := response
          sources := sources
          search_results := count
          search_type := some "web"
          conversation_id := some cid
          processing_time := env.elapsed
          timestamp := some env.nowIso }
  else if use_database then
    match env.vectorSearch query (if use_reranking then n * 2 else n) with
    | Except.error e => Except.error e
    | Except.ok search_results =>
      if search_results = [] then
        Except.ok
          { query := query
            response := "お探しの情報が見つかりませんでした。別のキーワードでお試しください。"
            search_type := some "database"
            processing_time := env.elapsed }
      else
        let ranked :=
          if use_reranking then
            (rerank env.parseTs env.weights query search_results).take n
          else search_results
        let cs := build_context ranked 2000 3
        let response := generate_response env.toGenEnv query cs.1 cid "database"
        Except.ok
          { query := query
            response := response
            sources := cs.2.map ChatSource.db
            search_results := ranked.length
            search_type := some "database"
            used_reranking := some use_reranking
            conversation_id := some cid
            processing_time := env.elapsed
            timestamp := some env.nowIso }
  else
    Except.ok
      { query := query
        response := "検索ソースが選択されていません。データベースまたはWeb検索を有効にしてください。"
        search_type := some "none"
        processing_time := env.elapsed }

/-- The structured error response of the outer `except` of `chat`. -/
def errorResponse (query e : String) (elapsed : ℚ) : ChatResponse :=
  { query := query
    response := "エラーが発生しました: " ++ e
    error := some e
    processing_time := elapsed }

/-- `RAGChatService.chat`: the try body with the outer exception boundary
converting any raised error into the structured error response. -/
def chat (env : ChatEnv) (query : String) (cid : Option String) (n : Nat)
    (use_reranking use_database use_web_search : Bool) : ChatResponse :=
  match chatBody env query cid n use_reranking use_database use_web_search with
  | Except.ok r => r
  | Except.error e => errorResponse query e env.elapsed

/-- The "no source selected" response of `chat` (searchType "none"). -/
def noneResponse (query : String) (elapsed : ℚ) : ChatResponse :=
  { query := query
    response := "検索ソースが選択されていません。データベースまたはWeb検索を有効にしてください。"
    search_type := some "none"
    processing_time := elapsed }

/-- The web-path inner-catch response of `chat`. -/
def webErrorResponse (query e : String) (elapsed : ℚ) : ChatResponse :=
  { query := query
    response := "Web検索中にエラーが発生しました: " ++ e
    search_type := some "web"
    error := some e
    processing_time := elapsed }

/-- C1 (confirmed): `chat` is a total function of its inputs and oracles
(it cannot raise in this model), and every raised sub-step error is
converted at a boundary into a structured error response carrying the
original query, the error text, and the elapsed time: the outer `except`
turns any propagated error into `errorResponse` (in particular a raising
vector search on the database path), and the web path's inner `except`
turns a raising web search into the structured `webErrorResponse`. -/
theorem c1_chat_never_raises (env : ChatEnv) (query : String)
    (cid : Option String) (n : Nat) (rr db ws : Bool) :
    (∀ r, chatBody env query cid n rr db ws = Except.ok r →
        chat env query cid n rr db ws = r) ∧
      (∀ e, chatBody env query cid n rr db ws = Except.error e →
        chat env query cid n rr db ws = errorResponse query e env.elapsed ∧
          (chat env query cid n rr db ws).query = query ∧
          (chat env query cid n rr db ws).error = some e ∧
          (chat env query cid n rr db ws).response =
            "エラーが発生しました: " ++ e ∧
          (chat env query cid n rr db ws).processing_time = env.elapsed) ∧
      (∀ e, env.vectorSearch query (if rr then n * 2 else n) =
          Except.error e →
        chat env query cid n rr true false = errorResponse query e env.elapsed) ∧
      (∀ e, env.webSearchDetailed query n = Except.error e →
        chat env query cid n rr db true = webErrorResponse query e env.elapsed) := by
  refine ⟨?_, ?_, ?_, ?_⟩
  · intro r h
    rw [chat, h]
  · intro e h
    rw [chat, h]
    exact ⟨rfl, rfl, rfl, rfl, rfl⟩
  · intro e h
    have hb : chatBody env query cid n rr true false = Except.error e := by
      rw [chatBody]
      rw [if_neg Bool.false_ne_true, if_pos rfl, h]
    rw [chat, hb]
  · intro e h
    have hw : webStage env query cid n = Except.error e := by
      rw [webStage, h]
    have hb : chatBody env query cid n rr db true =
        Except.ok (webErrorResponse query e env.elapsed) := by
      rw [chatBody, if_pos rfl, hw]
      rfl
    rw [chat, hb]

/-- Chat environment for the boundary witness: the vector search raises
"boom" and the web search raises "net". -/
def failEnv : ChatEnv :=
  { llm := none
    systemPrompt := ""
    formatPrompt := fun _ _ _ => ""
    threadInfoExists := fun _ => false
    memContext := fun _ _ => ""
    vectorSearch := fun _ _ => Except.error "boom"
    webSearchDetailed := fun _ _ => Except.error "net"
    parseTs := fun _ => none
    weights := defaultWeights
    nowIso := "2026-01-01T00:00:00"
    elapsed := 0 }

/-- Witness for c1_chat_never_raises: the concrete raising oracles give
the structured error responses on both paths. -/
theorem c1_witness :
    chat failEnv "q" none 10 true true false = errorResponse "q" "boom" 0 ∧
      chat failEnv "q" none 10 true true true = webErrorResponse "q" "net" 0 :=
  ⟨(c1_chat_never_raises failEnv "q" none 10 true true false).2.2.1 "boom" rfl,
    (c1_chat_never_raises failEnv "q" none 10 true true true).2.2.2 "net" rfl⟩

/-- C9 (confirmed): with both `use_database` and `use_web_search` false,
`chat` returns the "no source selected" response — searchType "none",
zero results, no sources, the explanatory message, no error — for EVERY
environment; since the equation holds whatever the retrieval oracles are
(second conjunct: any two environments with the same clock agree), no
vector retrieval and no web search is consulted, and nothing is raised. -/
theorem c9_no_source_selected (env : ChatEnv) (query : String)
    (cid : Option String) (n : Nat) (rr : Bool) :
    chat env query cid n rr false false = noneResponse query env.elapsed ∧
      (noneResponse query env.elapsed).search_type = some "none" ∧
      (noneResponse query env.elapsed).search_results = 0 ∧
      (noneResponse query env.elapsed).sources = [] ∧
      (noneResponse query env.elapsed).error = none ∧
      (noneResponse query env.elapsed).response =
        "検索ソースが選択されていません。データベースまたはWeb検索を有効にしてください。" ∧
      ∀ env' : ChatEnv, env'.elapsed = env.elapsed →
        chat env' query cid n rr false false = chat env query cid n rr false false := by
  refine ⟨rfl, rfl, rfl, rfl, rfl, rfl, ?_⟩
  intro env' h
  have h1 : chat env' query cid n rr false false =
      noneResponse query env'.elapsed := rfl
  rw [h1, h]
  rfl

/-- A message entry of a conversation thread's `messages` list
(conversation_memory_service.py); the optional metadata dictionary is
kept abstract as a string payload. -/
structure StoredMessage where
  role : String
  content : String
  timestamp : String
  metadata : Option String := none
  deriving Repr, DecidableEq

/-- An active conversation thread (`self.conversations[thread_id]`): the
LangChain buffer memory is modelled by its (role, content) message list;
the disk copy and the optional LLM chain carry no information the claims
touch. -/
structure ConvThread where
  id : String
  title : String
  created_at : String
  updated_at : String
  message_count : Nat
  memory_messages : List (String × String)
  messages : List StoredMessage
  deriving Repr, DecidableEq

/-- The in-memory store `self.conversations`, as an association list from
thread id to thread. -/
def ConvStore := List (String × ConvThread)

/-- Replace the binding of `tid` in the store. -/
def updateStore (store : ConvStore) (tid : String) (t : ConvThread) :
    ConvStore :=
  store.map (fun p => if p.1 = tid then (tid, t) else p)

/-- `ConversationMemoryService.add_message(thread_id, role, content,
metadata)`: `False` when the thread does not exist; for role "human" or
"ai" the message is appended to the LangChain memory and the messages
list, the count and `updated_at` are bumped (then saved to disk, which
cannot raise — `_save_thread` catches internally), and `True` is
returned; any other role is rejected with `False` before any mutation.
`now` threads the wall clock for the timestamps. -/
def add_message (now : String) (store : ConvStore)
    (thread_id role content : String) (metadata : Option String) :
    Bool × ConvStore :=
  match store.lookup thread_id with
  | none => (false, store)
  | some thread =>
    if role = "human" ∨ role = "ai" then
      let msg : StoredMessage :=
        { role := role, content := content, timestamp := now,
          metadata := metadata }
      let thread' : ConvThread :=
        { thread with
            memory_messages := thread.memory_messages ++ [(role, content)]
            messages := thread.messages ++ [msg]
            message_count := thread.message_count + 1
            updated_at := now }
      (true, updateStore store thread_id thread')
    else (false, store)

/-- C10 (confirmed): `add_message` on an unknown thread id returns False
and leaves the store untouched (the membership check precedes every
mutation), and on an existing thread with a role other than "human" or
"ai" it returns False and leaves the store — hence that thread's
messages, message count, and memory — untouched (the role dispatch
precedes every mutation). -/
theorem c10_add_message_rejections (now : String) (store : ConvStore)
    (thread_id role content : String) (metadata : Option String) :
    (store.lookup thread_id = none →
        add_message now store thread_id role content metadata =
          (false, store)) ∧
      (¬ role = "human" → ¬ role = "ai" →
        add_message now store thread_id role content metadata =
          (false, store)) := by
  constructor
  · intro h
    rw [add_message, h]
  · intro h1 h2
    rw [add_message]
    cases hl : store.lookup thread_id with
    | none => rfl
    | some thread =>
      have hrole : ¬ (role = "human" ∨ role = "ai") := by
        intro hc
        rcases hc with hc | hc
        · exact h1 hc
        · exact h2 hc
      dsimp only
      rw [if_neg hrole]

/-- A concrete one-thread store for the witness. -/
def demoStore : ConvStore :=
  [("t1",
    { id := "t1", title := "demo", created_at := "c", updated_at := "c",
      message_count := 0, memory_messages := [], messages := [] })]

/-- Witness for c10_add_message_rejections: an unknown thread and an
invalid role on an existing thread are both rejected without change. -/
theorem c10_witness :
    add_message "now" demoStore "missing" "human" "hi" none =
        (false, demoStore) ∧
      add_message "now" demoStore "t1" "system" "hi" none =
        (false, demoStore) :=
  ⟨(c10_add_message_rejections "now" demoStore "missing" "human" "hi" none).1
      (by decide),
    (c10_add_message_rejections "now" demoStore "t1" "system" "hi" none).2
      (by decide) (by decide)⟩
